import Mathlib

/-
Verification development for the persistence utilities of
`voice_analysis` (file `src/voice_analysis/utils/common.py`).

The Python module is a set of stateless helpers over the filesystem:
`read_yaml`, `validate_yaml_content`, `create_directories`, `save_json`,
`load_json`, `save_bin`, `load_bin` and `get_size`.  We embed the module
shallowly: the filesystem is an association list from paths to nodes,
Python values are an inductive type `PyVal`, Python exceptions are an
inductive type `PyErr`, and each helper becomes a Lean function returning
`Except PyErr _` together with the updated filesystem where it writes.

External libraries are modelled at the level of their documented
contracts, single-threaded and race-free:
* `yaml.safe_load` is modelled by storing, with each text file, the result
  that parsing its raw text yields (a syntax-error message, or the parsed
  document where `Option.none` stands for Python `None`);
* `json.dump` / `json.load` and `joblib.dump` / `joblib.load` are modelled
  by storing the serialized value in the file node, since round-trip
  fidelity over JSON-representable respectively picklable values is their
  documented contract;
* `ConfigBox` (python-box `Box.__init__`) copies mappings, refuses a
  string or a non-iterable argument with `BoxValueError`, and consumes
  any other iterable as key-value pairs, so a list raises a plain
  unpacking ValueError or TypeError when its elements are not pairs;
* `os.makedirs(..., exist_ok=True)` follows the CPython algorithm:
  ensure the parent, then `mkdir`, with an existing directory at the
  target tolerated and an existing regular file reported as an error;
* `os.path.getsize` returns the byte size of the node; `round` is
  Python's round-half-to-even, exact here because n / 1024 is an exact
  binary-floating division for every realistic size.

Paths are lists of components stored leaf-first, so that the parent of a
path is its tail.  Messages which in the source quote words in single
quotes are rendered here without the quote characters.
-/

/-- A filesystem path, as its list of components with the leaf FIRST:
the Python path a/b/c.txt is `["c.txt", "b", "a"]`, and the parent of a
path is its tail. -/
abbrev FPath := List String

/-- Render a path the way Python prints it inside messages. -/
def pstr (p : FPath) : String :=
  String.intercalate "/" p.reverse

/-- Python values that can appear as a parsed YAML / JSON document or as
a pickled payload: None, booleans, integers, strings, lists and
string-keyed dictionaries. -/
inductive PyVal where
  | noneV
  | boolV (b : Bool)
  | intV (n : Int)
  | strV (s : String)
  | listV (xs : List PyVal)
  | dictV (kvs : List (String × PyVal))

/-- Python exceptions that the embedded functions can raise, each with
its message. -/
inductive PyErr where
  | valueError (msg : String)
  | typeError (msg : String)
  | fileNotFoundError (msg : String)
  | fileExistsError (msg : String)
  | notADirectoryError (msg : String)
  | isADirectoryError (msg : String)
  | yamlError (msg : String)
  | boxValueError (msg : String)
  | jsonDecodeError (msg : String)
  | unpicklingError (msg : String)
deriving DecidableEq

/-- Content of a regular file.

* `yaml raw parsed`: a text file with raw text `raw`; `parsed` records
  what `yaml.safe_load` yields on that text — a syntax-error message, or
  the document, where `Option.none` models Python `None` (the result for
  an empty file, a comment-only file, or the literal document null).
* `json v`: a file written by `json.dump` of the value `v`.
* `bin v`: a file written by `joblib.dump` of the value `v`. -/
inductive FileContent where
  | yaml (raw : String) (parsed : Except String (Option PyVal))
  | json (v : PyVal)
  | bin (v : PyVal)

/-- A filesystem node: a directory or a regular file. -/
inductive Node where
  | dir
  | file (c : FileContent)

/-- The filesystem: an association list from paths to nodes, looked up
front-first. -/
abbrev FS := List (FPath × Node)

/-- Look a path up in the filesystem. -/
def FS.lookup : FS → FPath → Option Node
  | [], _ => none
  | (q, n) :: rest, p => if q = p then some n else FS.lookup rest p

/-- Remove every entry at a path. -/
def FS.erase (fs : FS) (p : FPath) : FS :=
  fs.filter (fun e => decide (e.1 ≠ p))

/-- Write a node at a path, replacing whatever was there. -/
def FS.write (fs : FS) (p : FPath) (n : Node) : FS :=
  (p, n) :: FS.erase fs p

/-- Modelled OS message of opening a path that does not exist. -/
def osNoFileMsg (p : FPath) : String :=
  "[Errno 2] No such file or directory: " ++ pstr p

/-- Modelled OS message of opening a directory as a file. -/
def isDirMsg (p : FPath) : String :=
  "[Errno 21] Is a directory: " ++ pstr p

/-- Modelled OS message of mkdir on an existing entry. -/
def existsMsg (p : FPath) : String :=
  "[Errno 17] File exists: " ++ pstr p

/-- Modelled OS message of mkdir under a regular file. -/
def notDirMsg (p : FPath) : String :=
  "[Errno 20] Not a directory: " ++ pstr p

/-- Message of the empty-document ValueError of `read_yaml` (the
source file quotes nothing here, the text is verbatim). -/
def emptyMsg (p : FPath) : String :=
  "YAML file " ++ pstr p ++ " is empty."

/-- Message of the invalid-structure ValueError of `read_yaml`. -/
def invalidStructureMsg (p : FPath) : String :=
  "YAML file " ++ pstr p ++ " has an invalid structure."

/-- Message of the FileNotFoundError that `read_yaml` re-raises. -/
def notFoundMsg (p : FPath) : String :=
  "YAML file " ++ pstr p ++ " not found."

/-- Message of the missing-marker-key ValueError of
`validate_yaml_content`; the source quotes required_key in single
quotes, elided here. -/
def missingKeyMsg : String :=
  "YAML content is missing required_key."

/-- Message of the TypeError Python raises for `x in v` when `v` is not
iterable; the source-level message quotes the type name. -/
def typeErrMsg (t : String) : String :=
  "argument of type " ++ t ++ " is not iterable"

/-- Message of the BoxValueError that python-box raises on a
non-iterable constructor argument. -/
def boxMsg : String :=
  "First argument must be mapping or iterable"

/-- Message of the BoxValueError that python-box raises on a string
constructor argument. -/
def strBoxMsg : String :=
  "Cannot extrapolate Box from string"

/-- Does the character list `l` start with `s`? -/
def charsStartWith : List Char → List Char → Bool
  | [], _ => true
  | _ :: _, [] => false
  | a :: s, b :: t => a = b && charsStartWith s t

/-- Does `sub` occur as a contiguous run inside `l`?  Models Python
substring containment `sub in s`. -/
def charsInfix (sub : List Char) : List Char → Bool
  | [] => sub.isEmpty
  | c :: t => charsStartWith sub (c :: t) || charsInfix sub t

/-- Python type name of a value, used in TypeError messages. -/
def pyTypeName : PyVal → String
  | .noneV => "NoneType"
  | .boolV _ => "bool"
  | .intV _ => "int"
  | .strV _ => "str"
  | .listV _ => "list"
  | .dictV _ => "dict"

/-- Python membership test `"required_key" in content`:
key containment for dicts, element equality for lists, substring for
strings, and a TypeError for the non-iterable scalars. -/
def containsKeyTest : PyVal → Except PyErr Bool
  | .dictV kvs => .ok (kvs.any (fun kv => kv.1 = "required_key"))
  | .listV xs =>
      .ok (xs.any (fun x =>
        match x with
        | .strV s => s = "required_key"
        | _ => false))
  | .strV s => .ok (charsInfix "required_key".toList s.toList)
  | v => .error (.typeError (typeErrMsg (pyTypeName v)))

/-- Embeds `validate_yaml_content` of common.py: raise ValueError when
required_key is not in the content; the membership test itself raises
TypeError on non-iterable content. -/
def validate_yaml_content (content : PyVal) : Except PyErr Unit :=
  match containsKeyTest content with
  | .error e => .error e
  | .ok true => .ok ()
  | .ok false => .error (.valueError missingKeyMsg)

/-- Python unpacking k, v = x as performed by the iterable branch of
Box.__init__: a two-element list or a two-character string or a
two-entry dict (iterating a dict yields its keys) unpacks; other
lengths raise the plain unpacking ValueError; non-iterable elements
raise TypeError. -/
def boxUnpack : PyVal → Except PyErr (PyVal × PyVal)
  | .strV s =>
    match s.toList with
    | [c1, c2] => .ok (.strV (String.mk [c1]), .strV (String.mk [c2]))
    | [] => .error (.valueError "not enough values to unpack (expected 2, got 0)")
    | [_] => .error (.valueError "not enough values to unpack (expected 2, got 1)")
    | _ => .error (.valueError "too many values to unpack (expected 2)")
  | .listV [a, b] => .ok (a, b)
  | .listV [] => .error (.valueError "not enough values to unpack (expected 2, got 0)")
  | .listV [_] => .error (.valueError "not enough values to unpack (expected 2, got 1)")
  | .listV _ => .error (.valueError "too many values to unpack (expected 2)")
  | .dictV [(k1, _), (k2, _)] => .ok (.strV k1, .strV k2)
  | .dictV [] => .error (.valueError "not enough values to unpack (expected 2, got 0)")
  | .dictV [_] => .error (.valueError "not enough values to unpack (expected 2, got 1)")
  | .dictV _ => .error (.valueError "too many values to unpack (expected 2)")
  | v => .error (.typeError ("cannot unpack non-iterable " ++ pyTypeName v ++ " object"))

/-- Key under which Box stores an unpacked key: a string key is kept;
the other hashable scalars (int, bool, None) are genuine Box keys but
lie outside the string-keyed mapping domain of `PyVal` and are rendered
by their Python repr; lists and dicts are unhashable and make
the assignment raise TypeError. -/
def boxKey : PyVal → Except PyErr String
  | .strV s => .ok s
  | .intV n => .ok (toString n)
  | .boolV true => .ok "True"
  | .boolV false => .ok "False"
  | .noneV => .ok "None"
  | .listV _ => .error (.typeError "unhashable type: list")
  | .dictV _ => .error (.typeError "unhashable type: dict")

/-- Python dict assignment d[k] = v: replace the binding if the key is
present, append it otherwise. -/
def dictSet (kvs : List (String × PyVal)) (k : String) (v : PyVal) :
    List (String × PyVal) :=
  if kvs.any (fun e => e.1 = k) then
    kvs.map (fun e => if e.1 = k then (k, v) else e)
  else kvs ++ [(k, v)]

/-- The iterable branch of Box.__init__: consume the list element by
element, unpacking each into a key-value pair and assigning it. -/
def boxFromPairs (acc : List (String × PyVal)) :
    List PyVal → Except PyErr (List (String × PyVal))
  | [] => .ok acc
  | x :: rest =>
    match boxUnpack x with
    | .error e => .error e
    | .ok (k, v) =>
      match boxKey k with
      | .error e => .error e
      | .ok ks => boxFromPairs (dictSet acc ks v) rest

/-- Embeds the `ConfigBox` constructor (python-box Box.__init__): a
mapping is returned unchanged (Box equality agrees with dict equality);
a string raises BoxValueError; any other iterable — here a list — is
consumed as key-value pairs, whose unpacking failures raise plain
ValueError or TypeError; a non-iterable raises BoxValueError. -/
def ConfigBox : PyVal → Except PyErr PyVal
  | .dictV kvs => .ok (.dictV kvs)
  | .strV _ => .error (.boxValueError strBoxMsg)
  | .listV xs =>
    match boxFromPairs [] xs with
    | .error e => .error e
    | .ok kvs => .ok (.dictV kvs)
  | _ => .error (.boxValueError boxMsg)

/-- What `yaml.safe_load` yields on the content of a regular file:
for a text file the recorded parse result; for a json.dump file the
stored value (JSON is a subset of YAML), with the null document read
back as Python None; a pickled binary file is modelled as failing with a
YAML reader error. -/
def safe_load_result : FileContent → Except PyErr (Option PyVal)
  | .yaml _ (.error m) => .error (.yamlError m)
  | .yaml _ (.ok r) => .ok r
  | .json .noneV => .ok none
  | .json v => .ok (some v)
  | .bin _ => .error (.yamlError "unacceptable character: special characters are not allowed")

/-- The try-suite of `read_yaml` of common.py: open the file, parse it
with `yaml.safe_load`, raise ValueError if the document is None,
validate it, and wrap it in a `ConfigBox`. -/
def read_yaml_body (fs : FS) (p : FPath) : Except PyErr PyVal :=
  match FS.lookup fs p with
  | none => .error (.fileNotFoundError (osNoFileMsg p))
  | some .dir => .error (.isADirectoryError (isDirMsg p))
  | some (.file c) =>
    match safe_load_result c with
    | .error e => .error e
    | .ok none => .error (.valueError (emptyMsg p))
    | .ok (some content) =>
      match validate_yaml_content content with
      | .error e => .error e
      | .ok _ => ConfigBox content

/-- Embeds `read_yaml` of common.py: the try-suite `read_yaml_body`
surrounded by its four except clauses.  A BoxValueError is replaced by a
new ValueError, a FileNotFoundError is replaced by a new
FileNotFoundError with a fresh message, and a yaml.YAMLError or any
other exception is logged and re-raised unchanged. -/
def read_yaml (fs : FS) (p : FPath) : Except PyErr PyVal :=
  match read_yaml_body fs p with
  | .ok v => .ok v
  | .error (.boxValueError _) => .error (.valueError (invalidStructureMsg p))
  | .error (.fileNotFoundError _) => .error (.fileNotFoundError (notFoundMsg p))
  | .error e => .error e

/-- First value stored under a key in a parsed mapping. -/
def dictGet : List (String × PyVal) → String → Option PyVal
  | [], _ => none
  | (k, v) :: rest, key => if k = key then some v else dictGet rest key

/-- Value stored under a key in the mapping a call returned, if the call
returned a mapping. -/
def resultGet (r : Except PyErr PyVal) (key : String) : Option PyVal :=
  match r with
  | .ok (.dictV kvs) => dictGet kvs key
  | _ => none

/-- Did the call raise a ValueError? -/
def isValueErr (r : Except PyErr PyVal) : Bool :=
  match r with
  | .error (.valueError _) => true
  | _ => false

/-- Embeds `os.makedirs(p, exist_ok=True)` as called by the source,
following the CPython algorithm in a race-free setting: if the parent
does not exist it is created recursively first, then the final
component is created; an existing directory at the target is accepted
because exist_ok is True, an existing regular file at the target raises
FileExistsError, and a regular file where a directory component is
needed raises NotADirectoryError.  The empty path raises
FileNotFoundError like mkdir of the empty string.

`mkdirLast` is the final `os.mkdir` step including the exist_ok check:
an existing directory at the target is accepted, an existing regular
file raises FileExistsError, and a missing or file-occupied parent
raises FileNotFoundError respectively NotADirectoryError. -/
def mkdirLast (fs : FS) (leaf : String) (parent : FPath) : Except PyErr FS :=
  match FS.lookup fs (leaf :: parent) with
  | some .dir => .ok fs
  | some (.file _) => .error (.fileExistsError (existsMsg (leaf :: parent)))
  | none =>
    if parent = [] then .ok ((leaf :: parent, Node.dir) :: fs)
    else
      match FS.lookup fs parent with
      | some .dir => .ok ((leaf :: parent, Node.dir) :: fs)
      | some (.file _) => .error (.notADirectoryError (notDirMsg (leaf :: parent)))
      | none => .error (.fileNotFoundError (osNoFileMsg (leaf :: parent)))

/-- Recursive phase of `os.makedirs(p, exist_ok=True)`: if the parent
exists (as anything) it is left alone, otherwise it is created
recursively; then `mkdirLast` handles the final component. -/
def makedirs : FS → FPath → Except PyErr FS
  | _, [] => .error (.fileNotFoundError (osNoFileMsg []))
  | fs, leaf :: parent =>
    if parent = [] then mkdirLast fs leaf parent
    else
      match FS.lookup fs parent with
      | some _ => mkdirLast fs leaf parent
      | none =>
        match makedirs fs parent with
        | .error e => .error e
        | .ok fs1 => mkdirLast fs1 leaf parent

/-- Embeds `create_directories` of common.py: `os.makedirs(path,
exist_ok=True)` for each path in order; the verbose flag only controls
logging and is not modelled. -/
def create_directories : FS → List FPath → Except PyErr FS
  | fs, [] => .ok fs
  | fs, p :: rest =>
    match makedirs fs p with
    | .error e => .error e
    | .ok fs1 => create_directories fs1 rest

/-- Embeds `path.parent.mkdir(parents=True, exist_ok=True)` as used by
`save_json` and `save_bin`: for a path in the current directory the
parent already exists and nothing happens, otherwise it behaves like
`os.makedirs(parent, exist_ok=True)`. -/
def ensureParent (fs : FS) (p : FPath) : Except PyErr FS :=
  match p with
  | [] => .ok fs
  | _ :: parent => if parent = [] then .ok fs else makedirs fs parent

/-- Embeds `save_json` of common.py: ensure the parent directory
exists, then open the path for writing and `json.dump` the mapping into
it with indent 4 (the indentation only affects the raw text, which the
model does not keep for json files).  Writing over an existing regular
file truncates it; opening a directory for writing raises
IsADirectoryError, and the empty path raises FileNotFoundError. -/
def save_json (fs : FS) (p : FPath) (data : List (String × PyVal)) : Except PyErr FS :=
  match p with
  | [] => .error (.fileNotFoundError (osNoFileMsg []))
  | _ :: _ =>
    match ensureParent fs p with
    | .error e => .error e
    | .ok fs1 =>
      match FS.lookup fs1 p with
      | some .dir => .error (.isADirectoryError (isDirMsg p))
      | _ => .ok (FS.write fs1 p (.file (.json (.dictV data))))

/-- Embeds `load_json` of common.py: open the path, `json.load` its
text and wrap the result in a `ConfigBox`.  There is no try/except in
the source, so a missing file raises the plain OS FileNotFoundError.
Text that was not produced by `json.dump` is modelled as raising
JSONDecodeError. -/
def load_json (fs : FS) (p : FPath) : Except PyErr PyVal :=
  match FS.lookup fs p with
  | none => .error (.fileNotFoundError (osNoFileMsg p))
  | some .dir => .error (.isADirectoryError (isDirMsg p))
  | some (.file (.json v)) => ConfigBox v
  | some (.file _) => .error (.jsonDecodeError ("Expecting value: line 1 column 1 (char 0)"))

/-- Embeds `save_bin` of common.py: ensure the parent directory exists,
then `joblib.dump` the value to the path. -/
def save_bin (fs : FS) (data : PyVal) (p : FPath) : Except PyErr FS :=
  match p with
  | [] => .error (.fileNotFoundError (osNoFileMsg []))
  | _ :: _ =>
    match ensureParent fs p with
    | .error e => .error e
    | .ok fs1 =>
      match FS.lookup fs1 p with
      | some .dir => .error (.isADirectoryError (isDirMsg p))
      | _ => .ok (FS.write fs1 p (.file (.bin data)))

/-- Embeds `load_bin` of common.py: `joblib.load` the path.  No
try/except in the source, so a missing file raises the plain OS
FileNotFoundError; a file that was not produced by `joblib.dump` is
modelled as raising an unpickling error. -/
def load_bin (fs : FS) (p : FPath) : Except PyErr PyVal :=
  match FS.lookup fs p with
  | none => .error (.fileNotFoundError (osNoFileMsg p))
  | some .dir => .error (.isADirectoryError (isDirMsg p))
  | some (.file (.bin v)) => .ok v
  | some (.file _) => .error (.unpicklingError "invalid load key")

/-- Crude byte-count model for the serialized form of a value; the
claims constrain no more than its being a natural number. -/
def blobSize : PyVal → Nat
  | .noneV => 4
  | .boolV _ => 5
  | .intV _ => 8
  | .strV s => s.utf8ByteSize + 2
  | .listV xs => 2 * xs.length + 2
  | .dictV kvs => 16 * kvs.length + 2

/-- Byte size `os.path.getsize` reports for a node.  The size of a text
file is the byte length of its raw text; the on-disk sizes of
json.dump and joblib.dump output are not tracked by the model and are
represented by `blobSize`; a directory gets the customary 4096. -/
def nodeSize : Node → Nat
  | .dir => 4096
  | .file (.yaml raw _) => raw.utf8ByteSize
  | .file (.json v) => blobSize v
  | .file (.bin v) => blobSize v

/-- Python `round(n / 1024)` for a byte count `n`: the division is
exact in binary floating point for every realistic size, and `round`
is round-half-to-even. -/
def pyRoundKB (n : Nat) : Nat :=
  if n % 1024 < 512 then n / 1024
  else if 512 < n % 1024 then n / 1024 + 1
  else if n / 1024 % 2 = 0 then n / 1024 else n / 1024 + 1

/-- Embeds `get_size` of common.py: `os.path.getsize`, divided by 1024,
rounded with Python round, and formatted. -/
def get_size (fs : FS) (p : FPath) : Except PyErr String :=
  match FS.lookup fs p with
  | none => .error (.fileNotFoundError (osNoFileMsg p))
  | some node => .ok ("~ " ++ toString (pyRoundKB (nodeSize node)) ++ " KB")

/-- One filesystem extends another when every lookup either is
unchanged or turned from absent into a directory. -/
def FSext (f1 f2 : FS) : Prop :=
  ∀ q, FS.lookup f2 q = FS.lookup f1 q ∨
    (FS.lookup f1 q = none ∧ FS.lookup f2 q = some Node.dir)

/-- The boolean key-membership answer of a mapping agrees with the
presence of a binding for the key. -/
theorem dictGet_isSome_eq_any (kvs : List (String × PyVal)) (k : String) :
    (dictGet kvs k).isSome = kvs.any (fun kv => kv.1 = k) := by
  induction kvs with
  | nil => rfl
  | cons hd tl ih =>
    cases hd with
    | mk a v =>
      by_cases h : a = k
      · simp [dictGet, h]
      · simp [dictGet, h, ih]

/-- C1: for every YAML file whose document parses to a mapping that
contains the marker key required_key, read_yaml returns that mapping,
and in particular the value stored under the marker key in the result
is the parsed value unchanged. -/
theorem C1_read_yaml_keeps_marker_value (fs : FS) (p : FPath) (raw : String)
    (kvs : List (String × PyVal))
    (hfile : FS.lookup fs p =
      some (.file (.yaml raw (.ok (some (.dictV kvs))))))
    (hkey : (dictGet kvs "required_key").isSome = true) :
    read_yaml fs p = .ok (.dictV kvs) ∧
      resultGet (read_yaml fs p) "required_key" = dictGet kvs "required_key" := by
  have hany : (kvs.any (fun kv => kv.1 = "required_key")) = true := by
    rw [← dictGet_isSome_eq_any]; exact hkey
  have hbody : read_yaml_body fs p = .ok (.dictV kvs) := by
    simp [read_yaml_body, hfile, safe_load_result, validate_yaml_content,
      containsKeyTest, hany, ConfigBox]
  have hall : read_yaml fs p = .ok (.dictV kvs) := by
    simp [read_yaml, hbody]
  exact ⟨hall, by rw [hall]; rfl⟩

/-- Witness for C1 at a one-entry filesystem. -/
theorem C1_witness :
    read_yaml [(["cfg.yaml"], Node.file (FileContent.yaml "required_key: 1"
        (Except.ok (some (PyVal.dictV [("required_key", PyVal.intV 1)])))))]
        ["cfg.yaml"]
      = Except.ok (PyVal.dictV [("required_key", PyVal.intV 1)]) ∧
      resultGet (read_yaml [(["cfg.yaml"], Node.file (FileContent.yaml "required_key: 1"
        (Except.ok (some (PyVal.dictV [("required_key", PyVal.intV 1)])))))]
        ["cfg.yaml"]) "required_key"
      = dictGet [("required_key", PyVal.intV 1)] "required_key" :=
  C1_read_yaml_keeps_marker_value _ _ _ _ rfl rfl

/-- C3: for every YAML file whose document parses to no content,
read_yaml raises the empty-document ValueError rather than returning a
mapping. -/
theorem C3_empty_yaml_raises (fs : FS) (p : FPath) (raw : String)
    (hfile : FS.lookup fs p = some (.file (.yaml raw (.ok none)))) :
    read_yaml fs p = .error (.valueError (emptyMsg p)) := by
  simp [read_yaml, read_yaml_body, hfile, safe_load_result]

/-- Witness for C3 at a genuinely empty file. -/
theorem C3_witness :
    read_yaml [(["e.yaml"], Node.file (FileContent.yaml "" (Except.ok none)))]
        ["e.yaml"]
      = Except.error (PyErr.valueError (emptyMsg ["e.yaml"])) :=
  C3_empty_yaml_raises _ _ _ rfl

/-- C10: read_yaml judges emptiness by the parsed value, not by the raw
file content: any two files at the same path whose documents parse to
None — whatever their raw texts, empty or not — make read_yaml raise
the very same empty-document ValueError. -/
theorem C10_emptiness_judged_by_parse (fs1 fs2 : FS) (p : FPath)
    (raw1 raw2 : String)
    (h1 : FS.lookup fs1 p = some (.file (.yaml raw1 (.ok none))))
    (h2 : FS.lookup fs2 p = some (.file (.yaml raw2 (.ok none)))) :
    read_yaml fs1 p = .error (.valueError (emptyMsg p)) ∧
      read_yaml fs1 p = read_yaml fs2 p := by
  constructor
  · simp [read_yaml, read_yaml_body, h1, safe_load_result]
  · simp [read_yaml, read_yaml_body, h1, h2, safe_load_result]

/-- Witness for C10: an empty file and a non-empty file holding only
the literal null document get the same empty-document error. -/
theorem C10_witness :
    read_yaml [(["n.yaml"], Node.file (FileContent.yaml "" (Except.ok none)))]
        ["n.yaml"]
      = Except.error (PyErr.valueError (emptyMsg ["n.yaml"])) ∧
    read_yaml [(["n.yaml"], Node.file (FileContent.yaml "" (Except.ok none)))]
        ["n.yaml"]
      = read_yaml [(["n.yaml"], Node.file (FileContent.yaml "null" (Except.ok none)))]
        ["n.yaml"] :=
  C10_emptiness_judged_by_parse _ _ _ _ _ rfl rfl

/-- C4 counterexample: a YAML document holding the single scalar 5 is
non-empty and does not contain the marker key, yet read_yaml raises
TypeError — the Python membership test is not defined on an int — and
not the ValidationError ValueError the claim promises. -/
theorem C4_counterexample :
    read_yaml [(["c.yaml"], Node.file (FileContent.yaml "5"
        (Except.ok (some (PyVal.intV 5)))))] ["c.yaml"]
      = Except.error (PyErr.typeError (typeErrMsg "int")) ∧
    isValueErr (read_yaml [(["c.yaml"], Node.file (FileContent.yaml "5"
        (Except.ok (some (PyVal.intV 5)))))] ["c.yaml"]) = false :=
  ⟨rfl, rfl⟩

/-- C4 amended: for every YAML document that parses to a non-empty
mapping, sequence, or string on which the membership test of the marker
key succeeds and reports absence, read_yaml raises the ValidationError
ValueError about the missing required_key. -/
theorem C4_missing_marker_raises (fs : FS) (p : FPath) (raw : String)
    (content : PyVal)
    (hfile : FS.lookup fs p = some (.file (.yaml raw (.ok (some content)))))
    (hmiss : containsKeyTest content = .ok false) :
    read_yaml fs p = .error (.valueError missingKeyMsg) := by
  simp [read_yaml, read_yaml_body, hfile, safe_load_result,
    validate_yaml_content, hmiss]

/-- Witness for the amended C4 at a mapping without the marker key. -/
theorem C4_witness :
    read_yaml [(["m.yaml"], Node.file (FileContent.yaml "other: 1"
        (Except.ok (some (PyVal.dictV [("other", PyVal.intV 1)])))))] ["m.yaml"]
      = Except.error (PyErr.valueError missingKeyMsg) :=
  C4_missing_marker_raises _ _ _ _ rfl rfl

/-- C9: on a path that does not exist, load_json, load_bin and get_size
each raise FileNotFoundError. -/
theorem C9_missing_path_not_found (fs : FS) (p : FPath)
    (h : FS.lookup fs p = none) :
    load_json fs p = .error (.fileNotFoundError (osNoFileMsg p)) ∧
    load_bin fs p = .error (.fileNotFoundError (osNoFileMsg p)) ∧
    get_size fs p = .error (.fileNotFoundError (osNoFileMsg p)) := by
  refine ⟨?_, ?_, ?_⟩ <;> simp [load_json, load_bin, get_size, h]

/-- Witness for C9 on the empty filesystem. -/
theorem C9_witness :
    load_json [] ["x.json"] = .error (.fileNotFoundError (osNoFileMsg ["x.json"])) ∧
    load_bin [] ["x.json"] = .error (.fileNotFoundError (osNoFileMsg ["x.json"])) ∧
    get_size [] ["x.json"] = .error (.fileNotFoundError (osNoFileMsg ["x.json"])) :=
  C9_missing_path_not_found [] ["x.json"] rfl

/-- The integer Python round(n / 1024) produces is a nearest integer to
n / 1024: it is off by at most half a unit, i.e. |1024 k - n| <= 512. -/
theorem pyRoundKB_near (n : Nat) :
    2 * Int.natAbs ((pyRoundKB n : Int) * 1024 - (n : Int)) ≤ 1024 := by
  unfold pyRoundKB
  by_cases h1 : n % 1024 < 512
  · simp only [if_pos h1]
    omega
  · simp only [if_neg h1]
    by_cases h2 : 512 < n % 1024
    · simp only [if_pos h2]
      omega
    · simp only [if_neg h2]
      by_cases h3 : n / 1024 % 2 = 0
      · simp only [if_pos h3]
        omega
      · simp only [if_neg h3]
        omega

/-- C8: on every existing file, get_size returns the string
"~ N KB" where N is the byte size divided by 1024 and rounded so that
it is a nearest integer (off by at most half a kilobyte). -/
theorem C8_get_size_rounds_to_nearest (fs : FS) (p : FPath) (node : Node)
    (h : FS.lookup fs p = some node) :
    get_size fs p = .ok ("~ " ++ toString (pyRoundKB (nodeSize node)) ++ " KB") ∧
    2 * Int.natAbs ((pyRoundKB (nodeSize node) : Int) * 1024 - (nodeSize node : Int)) ≤ 1024 := by
  refine ⟨?_, pyRoundKB_near _⟩
  simp [get_size, h]

/-- Byte length of a string of n copies of one character. -/
theorem utf8Go_replicate (n : Nat) (c : Char) :
    String.utf8ByteSize.go (List.replicate n c) = n * c.utf8Size := by
  induction n with
  | zero => simp [List.replicate, String.utf8ByteSize.go]
  | succ k ih =>
    simp only [List.replicate, String.utf8ByteSize.go, ih]
    ring

/-- Witness for C8 at a file of exactly 2048 bytes, where get_size
returns the string claimed by the specification. -/
theorem C8_witness :
    get_size [(["d.txt"], Node.file (FileContent.yaml
        (String.mk (List.replicate 2048 'a')) (Except.ok none)))] ["d.txt"]
      = Except.ok "~ 2 KB" := by
  have hs : (String.mk (List.replicate 2048 'a')).utf8ByteSize = 2048 := by
    show String.utf8ByteSize.go (List.replicate 2048 'a') = 2048
    rw [utf8Go_replicate]
    rfl
  have h := C8_get_size_rounds_to_nearest
    [(["d.txt"], Node.file (FileContent.yaml
      (String.mk (List.replicate 2048 'a')) (Except.ok none)))] ["d.txt"]
    (Node.file (FileContent.yaml (String.mk (List.replicate 2048 'a')) (Except.ok none)))
    rfl
  rw [h.1, show nodeSize (Node.file (FileContent.yaml
      (String.mk (List.replicate 2048 'a')) (Except.ok none))) = 2048 from hs]
  rfl

/-- C5 counterexample: a document parsing to the scalar string
required_key passes the substring validation but makes the ConfigBox
constructor raise BoxValueError (a Box cannot be built from a string)
inside the try-suite; the caller receives a ValueError with a new
message instead — the error is replaced, not re-raised unchanged. -/
theorem C5_counterexample :
    read_yaml_body [(["s.yaml"], Node.file (FileContent.yaml "required_key"
        (Except.ok (some (PyVal.strV "required_key")))))] ["s.yaml"]
      = Except.error (PyErr.boxValueError strBoxMsg) ∧
    read_yaml [(["s.yaml"], Node.file (FileContent.yaml "required_key"
        (Except.ok (some (PyVal.strV "required_key")))))] ["s.yaml"]
      = Except.error (PyErr.valueError (invalidStructureMsg ["s.yaml"])) ∧
    PyErr.boxValueError strBoxMsg ≠ PyErr.valueError (invalidStructureMsg ["s.yaml"]) :=
  ⟨rfl, rfl, by decide⟩

/-- C5 amended: every error raised inside the try-suite of read_yaml
propagates to the caller and none is recovered or retried; YAML syntax
errors, ValueErrors, TypeErrors and other generic exceptions are
re-raised unchanged, while a FileNotFoundError from opening is replaced
by a new FileNotFoundError saying the YAML file was not found, and a
BoxValueError from the ConfigBox constructor is replaced by a
ValueError saying the file has an invalid structure. -/
theorem C5_error_propagation (fs : FS) (p : FPath) :
    (∀ m, read_yaml_body fs p = .error (.yamlError m) →
      read_yaml fs p = .error (.yamlError m)) ∧
    (∀ m, read_yaml_body fs p = .error (.valueError m) →
      read_yaml fs p = .error (.valueError m)) ∧
    (∀ m, read_yaml_body fs p = .error (.typeError m) →
      read_yaml fs p = .error (.typeError m)) ∧
    (∀ m, read_yaml_body fs p = .error (.isADirectoryError m) →
      read_yaml fs p = .error (.isADirectoryError m)) ∧
    (∀ m, read_yaml_body fs p = .error (.fileNotFoundError m) →
      read_yaml fs p = .error (.fileNotFoundError (notFoundMsg p))) ∧
    (∀ m, read_yaml_body fs p = .error (.boxValueError m) →
      read_yaml fs p = .error (.valueError (invalidStructureMsg p))) ∧
    (∀ e, read_yaml_body fs p = .error e → ∀ v, read_yaml fs p ≠ .ok v) ∧
    (∀ v, read_yaml_body fs p = .ok v → read_yaml fs p = .ok v) := by
  refine ⟨?_, ?_, ?_, ?_, ?_, ?_, ?_, ?_⟩
  · intro m h; simp [read_yaml, h]
  · intro m h; simp [read_yaml, h]
  · intro m h; simp [read_yaml, h]
  · intro m h; simp [read_yaml, h]
  · intro m h; simp [read_yaml, h]
  · intro m h; simp [read_yaml, h]
  · intro e h v
    cases e <;> simp [read_yaml, h]
  · intro v h; simp [read_yaml, h]

/-- Witness for the amended C5: at a missing file the caller receives
the fresh not-found message, and at the string document of the
counterexample the caller receives the invalid-structure ValueError. -/
theorem C5_witness :
    read_yaml [] ["a.yaml"]
      = Except.error (PyErr.fileNotFoundError (notFoundMsg ["a.yaml"])) ∧
    read_yaml [(["s.yaml"], Node.file (FileContent.yaml "required_key"
        (Except.ok (some (PyVal.strV "required_key")))))] ["s.yaml"]
      = Except.error (PyErr.valueError (invalidStructureMsg ["s.yaml"])) :=
  ⟨(C5_error_propagation [] ["a.yaml"]).2.2.2.2.1 (osNoFileMsg ["a.yaml"]) rfl,
   (C5_error_propagation [(["s.yaml"], Node.file (FileContent.yaml "required_key"
      (Except.ok (some (PyVal.strV "required_key")))))]
      ["s.yaml"]).2.2.2.2.2.1 strBoxMsg rfl⟩

/-- Looking up the path just written finds the new node. -/
theorem lookup_write_self (fs : FS) (p : FPath) (n : Node) :
    FS.lookup (FS.write fs p n) p = some n := by
  simp [FS.write, FS.lookup]

/-- C2: whenever save_json completes on a path, load_json on the same
path returns a mapping equal to the one saved. -/
theorem C2_json_round_trip (fs fs' : FS) (p : FPath)
    (d : List (String × PyVal))
    (h : save_json fs p d = .ok fs') :
    load_json fs' p = .ok (.dictV d) := by
  cases p with
  | nil => simp [save_json] at h
  | cons a t =>
    simp only [save_json] at h
    cases he : ensureParent fs (a :: t) with
    | error e => rw [he] at h; exact absurd h (by simp)
    | ok fs1 =>
      rw [he] at h
      dsimp only at h
      cases hl : FS.lookup fs1 (a :: t) with
      | none =>
        rw [hl] at h
        dsimp only at h
        simp only [Except.ok.injEq] at h
        subst h
        simp [load_json, lookup_write_self, ConfigBox]
      | some node =>
        rw [hl] at h
        cases node with
        | dir => exact absurd h (by simp)
        | file c =>
          dsimp only at h
          simp only [Except.ok.injEq] at h
          subst h
          simp [load_json, lookup_write_self, ConfigBox]

/-- Witness for C2: saving a one-entry mapping to out/f.json and
loading it back returns the mapping. -/
theorem C2_witness :
    load_json [(["f.json", "out"], Node.file (FileContent.json
        (PyVal.dictV [("k", PyVal.intV 3)]))), (["out"], Node.dir)] ["f.json", "out"]
      = Except.ok (PyVal.dictV [("k", PyVal.intV 3)]) :=
  C2_json_round_trip [] _ ["f.json", "out"] [("k", PyVal.intV 3)] rfl

/-- C6: whenever save_bin completes on a path, load_bin on the same
path returns the value saved. -/
theorem C6_binary_round_trip (fs fs' : FS) (v : PyVal) (p : FPath)
    (h : save_bin fs v p = .ok fs') :
    load_bin fs' p = .ok v := by
  cases p with
  | nil => simp [save_bin] at h
  | cons a t =>
    simp only [save_bin] at h
    cases he : ensureParent fs (a :: t) with
    | error e => rw [he] at h; exact absurd h (by simp)
    | ok fs1 =>
      rw [he] at h
      dsimp only at h
      cases hl : FS.lookup fs1 (a :: t) with
      | none =>
        rw [hl] at h
        dsimp only at h
        simp only [Except.ok.injEq] at h
        subst h
        simp [load_bin, lookup_write_self]
      | some node =>
        rw [hl] at h
        cases node with
        | dir => exact absurd h (by simp)
        | file c =>
          dsimp only at h
          simp only [Except.ok.injEq] at h
          subst h
          simp [load_bin, lookup_write_self]

/-- Witness for C6: saving a list payload to models/m.bin and loading
it back returns the payload. -/
theorem C6_witness :
    load_bin [(["m.bin", "models"], Node.file (FileContent.bin
        (PyVal.listV [PyVal.intV 1, PyVal.strV "w"]))), (["models"], Node.dir)]
        ["m.bin", "models"]
      = Except.ok (PyVal.listV [PyVal.intV 1, PyVal.strV "w"]) :=
  C6_binary_round_trip [] _ (PyVal.listV [PyVal.intV 1, PyVal.strV "w"])
    ["m.bin", "models"] rfl

theorem FSext.refl (fs : FS) : FSext fs fs :=
  fun _ => Or.inl rfl

theorem FSext.trans {f1 f2 f3 : FS} (h12 : FSext f1 f2) (h23 : FSext f2 f3) :
    FSext f1 f3 := by
  intro q
  rcases h23 q with g | ⟨g1, g2⟩
  · rcases h12 q with h | ⟨h1, h2⟩
    · exact Or.inl (g.trans h)
    · exact Or.inr ⟨h1, g.trans h2⟩
  · rcases h12 q with h | ⟨h1, h2⟩
    · rw [h] at g1
      exact Or.inr ⟨g1, g2⟩
    · rw [h2] at g1
      exact Option.noConfusion g1

theorem FSext.consDir {fs : FS} {p : FPath} (h : FS.lookup fs p = none) :
    FSext fs ((p, Node.dir) :: fs) := by
  intro q
  by_cases hq : p = q
  · subst hq
    exact Or.inr ⟨h, by simp [FS.lookup]⟩
  · exact Or.inl (by simp [FS.lookup, hq])

theorem FSext.mono {f1 f2 : FS} (h : FSext f1 f2) {q : FPath} {n : Node}
    (hq : FS.lookup f1 q = some n) : FS.lookup f2 q = some n := by
  rcases h q with g | ⟨g1, _⟩
  · rw [g, hq]
  · rw [hq] at g1
    exact Option.noConfusion g1

theorem mkdirLast_ext (fs fs' : FS) (leaf : String) (parent : FPath)
    (h : mkdirLast fs leaf parent = .ok fs') : FSext fs fs' := by
  unfold mkdirLast at h
  split at h
  · cases h
    exact FSext.refl _
  · exact absurd h (by simp)
  · rename_i hnone
    by_cases hp : parent = []
    · rw [if_pos hp] at h
      cases h
      exact FSext.consDir hnone
    · rw [if_neg hp] at h
      split at h
      · cases h
        exact FSext.consDir hnone
      · exact absurd h (by simp)
      · exact absurd h (by simp)

theorem mkdirLast_self (fs fs' : FS) (leaf : String) (parent : FPath)
    (h : mkdirLast fs leaf parent = .ok fs') :
    FS.lookup fs' (leaf :: parent) = some Node.dir := by
  unfold mkdirLast at h
  split at h
  · rename_i hdir
    cases h
    exact hdir
  · exact absurd h (by simp)
  · by_cases hp : parent = []
    · rw [if_pos hp] at h
      cases h
      simp [FS.lookup]
    · rw [if_neg hp] at h
      split at h
      · cases h
        simp [FS.lookup]
      · exact absurd h (by simp)
      · exact absurd h (by simp)

theorem mkdirLast_noop (fs : FS) (leaf : String) (parent : FPath)
    (hdir : FS.lookup fs (leaf :: parent) = some Node.dir) :
    mkdirLast fs leaf parent = .ok fs := by
  unfold mkdirLast
  rw [hdir]

theorem makedirs_ext : ∀ (p : FPath) (fs fs' : FS),
    makedirs fs p = .ok fs' → FSext fs fs' := by
  intro p
  induction p with
  | nil =>
    intro fs fs' h
    simp [makedirs] at h
  | cons leaf parent ih =>
    intro fs fs' h
    simp only [makedirs] at h
    by_cases hp : parent = []
    · rw [if_pos hp] at h
      exact mkdirLast_ext _ _ _ _ h
    · rw [if_neg hp] at h
      cases hl : FS.lookup fs parent with
      | some x =>
        rw [hl] at h
        dsimp only at h
        exact mkdirLast_ext _ _ _ _ h
      | none =>
        rw [hl] at h
        dsimp only at h
        cases hm : makedirs fs parent with
        | error e =>
          rw [hm] at h
          exact absurd h (by simp)
        | ok fs1 =>
          rw [hm] at h
          dsimp only at h
          exact (ih fs fs1 hm).trans (mkdirLast_ext _ _ _ _ h)

theorem makedirs_self (p : FPath) (fs fs' : FS)
    (h : makedirs fs p = .ok fs') : FS.lookup fs' p = some Node.dir := by
  cases p with
  | nil => simp [makedirs] at h
  | cons leaf parent =>
    simp only [makedirs] at h
    by_cases hp : parent = []
    · rw [if_pos hp] at h
      exact mkdirLast_self _ _ _ _ h
    · rw [if_neg hp] at h
      cases hl : FS.lookup fs parent with
      | some x =>
        rw [hl] at h
        dsimp only at h
        exact mkdirLast_self _ _ _ _ h
      | none =>
        rw [hl] at h
        dsimp only at h
        cases hm : makedirs fs parent with
        | error e =>
          rw [hm] at h
          exact absurd h (by simp)
        | ok fs1 =>
          rw [hm] at h
          dsimp only at h
          exact mkdirLast_self _ _ _ _ h

theorem makedirs_post (p : FPath) (fs fs' : FS)
    (h : makedirs fs p = .ok fs') :
    FS.lookup fs' p = some Node.dir ∧
      (p.tail = [] ∨ (FS.lookup fs' p.tail).isSome = true) := by
  refine ⟨makedirs_self p fs fs' h, ?_⟩
  cases p with
  | nil => simp [makedirs] at h
  | cons leaf parent =>
    simp only [makedirs] at h
    by_cases hp : parent = []
    · exact Or.inl hp
    · rw [if_neg hp] at h
      right
      cases hl : FS.lookup fs parent with
      | some x =>
        rw [hl] at h
        dsimp only at h
        have hx := (mkdirLast_ext _ _ _ _ h).mono hl
        simp [hx]
      | none =>
        rw [hl] at h
        dsimp only at h
        cases hm : makedirs fs parent with
        | error e =>
          rw [hm] at h
          exact absurd h (by simp)
        | ok fs1 =>
          rw [hm] at h
          dsimp only at h
          have h1 : FS.lookup fs1 parent = some Node.dir :=
            makedirs_self parent fs fs1 hm
          have hx := (mkdirLast_ext _ _ _ _ h).mono h1
          simp [hx]

theorem makedirs_noop (p : FPath) (fs : FS) (hne : p ≠ [])
    (hdir : FS.lookup fs p = some Node.dir)
    (hpar : p.tail = [] ∨ (FS.lookup fs p.tail).isSome = true) :
    makedirs fs p = .ok fs := by
  cases p with
  | nil => exact absurd rfl hne
  | cons leaf parent =>
    simp only [makedirs]
    by_cases hp : parent = []
    · rw [if_pos hp]
      exact mkdirLast_noop _ _ _ hdir
    · rw [if_neg hp]
      rcases hpar with h0 | h0
      · simp only [List.tail_cons] at h0
        exact absurd h0 hp
      · obtain ⟨x, hx⟩ := Option.isSome_iff_exists.mp (by simpa using h0)
        rw [hx]
        dsimp only
        exact mkdirLast_noop _ _ _ hdir

theorem cd_ext : ∀ (ps : List FPath) (fs fs' : FS),
    create_directories fs ps = .ok fs' → FSext fs fs' := by
  intro ps
  induction ps with
  | nil =>
    intro fs fs' h
    simp only [create_directories, Except.ok.injEq] at h
    subst h
    exact FSext.refl _
  | cons p rest ih =>
    intro fs fs' h
    simp only [create_directories] at h
    cases hm : makedirs fs p with
    | error e =>
      rw [hm] at h
      exact absurd h (by simp)
    | ok fs1 =>
      rw [hm] at h
      dsimp only at h
      exact (makedirs_ext p fs fs1 hm).trans (ih fs1 fs' h)

theorem cd_idem : ∀ (ps : List FPath) (fs fs' : FS),
    create_directories fs ps = .ok fs' →
    create_directories fs' ps = .ok fs' := by
  intro ps
  induction ps with
  | nil =>
    intro fs fs' _
    rfl
  | cons p rest ih =>
    intro fs fs' h
    simp only [create_directories] at h
    cases hm : makedirs fs p with
    | error e =>
      rw [hm] at h
      exact absurd h (by simp)
    | ok fs1 =>
      rw [hm] at h
      dsimp only at h
      have hext : FSext fs1 fs' := cd_ext rest fs1 fs' h
      have hpost := makedirs_post p fs fs1 hm
      have hne : p ≠ [] := by
        intro hcon
        subst hcon
        simp [makedirs] at hm
      have hdir' : FS.lookup fs' p = some Node.dir := hext.mono hpost.1
      have hpar' : p.tail = [] ∨ (FS.lookup fs' p.tail).isSome = true := by
        rcases hpost.2 with h0 | h0
        · exact Or.inl h0
        · right
          obtain ⟨n, hn⟩ := Option.isSome_iff_exists.mp h0
          rw [hext.mono hn]
          rfl
      have hmd : makedirs fs' p = .ok fs' := makedirs_noop p fs' hne hdir' hpar'
      simp only [create_directories, hmd]
      exact ih fs1 fs' h

theorem cd_noop : ∀ (ps : List FPath) (fs : FS),
    (∀ p ∈ ps, p ≠ [] ∧ FS.lookup fs p = some Node.dir ∧
      (p.tail = [] ∨ (FS.lookup fs p.tail).isSome = true)) →
    create_directories fs ps = .ok fs := by
  intro ps
  induction ps with
  | nil =>
    intro fs _
    rfl
  | cons p rest ih =>
    intro fs hall
    obtain ⟨hne, hdir, hpar⟩ := hall p (by simp)
    have hmd := makedirs_noop p fs hne hdir hpar
    simp only [create_directories, hmd]
    exact ih fs (fun q hq => hall q (by simp [hq]))

/-- C7 counterexample: with a regular file at path a, even the first
call of create_directories on the list [a] raises FileExistsError, so
calling it twice with that list does not run error-free. -/
theorem C7_counterexample :
    (create_directories [(["a"], Node.file (FileContent.bin PyVal.noneV))]
        [["a"]] >>= fun fs1 => create_directories fs1 [["a"]])
      = Except.error (PyErr.fileExistsError (existsMsg ["a"])) :=
  rfl

/-- C7 amended: whenever a create_directories call completes, running
it again with the same list completes and leaves the filesystem
unchanged; and when every listed path is nonempty, already a directory,
and has its parent present, the call completes without modifying
anything — in particular it never fails on directories that already
exist.  (A call can fail when a listed path or one of its ancestors is
occupied by a regular file.) -/
theorem C7_create_directories_idempotent (fs fs' : FS) (ps : List FPath) :
    (create_directories fs ps = .ok fs' → create_directories fs' ps = .ok fs') ∧
    ((∀ p ∈ ps, p ≠ [] ∧ FS.lookup fs p = some Node.dir ∧
        (p.tail = [] ∨ (FS.lookup fs p.tail).isSome = true)) →
      create_directories fs ps = .ok fs) :=
  ⟨cd_idem ps fs fs', cd_noop ps fs⟩

/-- Witness for C7: creating a and a/b from the empty filesystem gives
a two-directory state on which running create_directories again — via
either half of the amended claim — changes nothing and raises nothing. -/
theorem C7_witness :
    create_directories [(["b", "a"], Node.dir), (["a"], Node.dir)]
        [["a"], ["b", "a"]]
      = Except.ok [(["b", "a"], Node.dir), (["a"], Node.dir)] ∧
    create_directories [(["b", "a"], Node.dir), (["a"], Node.dir)] [["a"]]
      = Except.ok [(["b", "a"], Node.dir), (["a"], Node.dir)] := by
  constructor
  · exact (C7_create_directories_idempotent []
      [(["b", "a"], Node.dir), (["a"], Node.dir)] [["a"], ["b", "a"]]).1 rfl
  · refine (C7_create_directories_idempotent
      [(["b", "a"], Node.dir), (["a"], Node.dir)]
      [(["b", "a"], Node.dir), (["a"], Node.dir)] [["a"]]).2 ?_
    intro p hp
    simp only [List.mem_singleton] at hp
    subst hp
    refine ⟨by simp, rfl, Or.inl rfl⟩
